import Mathlib

/-!
Verification development for the gitscan scanner service.

The definitions below are a shallow embedding of
`src/scanner-service/src/models.py` and
`src/scanner-service/src/scanners/security_scanner.py`:

* `Severity`, `VulnerabilityCategory`, `Vulnerability` mirror the dataclasses
  and enums of `models.py`.  The Python `fix_confidence : Optional[float]`
  field only ever participates in order comparisons against the decimal
  constants `0.95`, `0.85` and `0.7`; these comparisons on IEEE doubles agree
  with the comparisons of the exact decimal values, so the field is embedded
  as `Option ℚ`.
* `SecurityScanner._deduplicate_vulnerabilities` becomes `foundIssues`,
  `foundRanges`, `filterRegex` and `deduplicateVulnerabilities`.  Python's
  `list.sort(key=...)` is a stable sort by the key tuple
  `(severity_order, file_path, start_line)`; a stable sort's output is
  uniquely determined by the input order and the key preorder, so it is
  embedded as `List.insertionSort` (also stable) over the lexicographic
  order `vulnLE` on the same key.  Python compares strings by code points,
  which coincides with the lexicographic order on `String.data`
  (`List Char`), used in `sortKey`.
* The per-file scan loop of `SecurityScanner.scan` becomes `runFileLoop`;
  `SecurityScanner._scan_file` becomes `scanFileModel` (its `try/except`
  around the file read maps a failing read to zero findings, and each
  scanner's own failure is likewise swallowed).
* `SecurityScanner._clone_repository` and the acquisition phase of
  `SecurityScanner.scan` become `cloneRepositoryModel` and `scanModel`;
  repository acquisition failure is a `GitError` raised by
  `Repo.clone_from`, upon which the partially created temporary directory
  is removed and `None` is returned.
* `SecurityScanner._init_scanners` becomes `scannerMap`,
  `directoryScannerMap`, `addUnique` and `initScanners`.  The Python code
  deduplicates scanner instances by `type(scanner).__name__`, so scanner
  instances are represented by their class, `ScannerType`.
-/

namespace GitScan

/-- Severity enum from `models.py` (`class Severity`). -/
inductive Severity where
  | CRITICAL
  | HIGH
  | MEDIUM
  | LOW
  | INFO
deriving DecidableEq, Repr

/-- Vulnerability category enum from `models.py` (`class VulnerabilityCategory`). -/
inductive VulnerabilityCategory where
  | XSS
  | SQL_INJECTION
  | COMMAND_INJECTION
  | PATH_TRAVERSAL
  | SSRF
  | XXE
  | DESERIALIZATION
  | AUTHENTICATION
  | AUTHORIZATION
  | CRYPTOGRAPHY
  | SECRETS_EXPOSURE
  | DEPENDENCY
  | CONFIGURATION
  | CODE_QUALITY
  | CSRF
  | SESSION
  | IDOR
  | MASS_ASSIGNMENT
  | OPEN_REDIRECT
  | OTHER
deriving DecidableEq, Repr

/-- Vulnerability finding record from `models.py` (`@dataclass class Vulnerability`). -/
structure Vulnerability where
  title : String
  description : String
  severity : Severity
  category : VulnerabilityCategory
  file_path : String
  start_line : Nat
  end_line : Nat
  code_snippet : Option String := none
  cwe_id : Option String := none
  cve_id : Option String := none
  suggested_fix : Option String := none
  fix_confidence : Option ℚ := none
  auto_fix_available : Bool := false
  rule_id : Option String := none
deriving DecidableEq, Repr

/-- The key `(vuln.file_path, vuln.start_line, vuln.category.value)` used for
the exact-match index in `_deduplicate_vulnerabilities`.  The Python value
strings of `VulnerabilityCategory` are in bijection with the enum members, so
the category itself stands in for `category.value`. -/
def exactKey (v : Vulnerability) : String × Nat × VulnerabilityCategory :=
  (v.file_path, v.start_line, v.category)

/-- The key `(vuln.file_path, vuln.category.value)` used for the coarse
file-and-category index in `_deduplicate_vulnerabilities`. -/
def rangeKey (v : Vulnerability) : String × VulnerabilityCategory :=
  (v.file_path, v.category)

/-- The `found_issues` set of `_deduplicate_vulnerabilities`: exact
`(file, start line, category)` keys of all professional-tool findings.
The Python set is only used for membership tests, so a list with `∈` is a
faithful embedding. -/
def foundIssues (professional_vulns : List Vulnerability) :
    List (String × Nat × VulnerabilityCategory) :=
  professional_vulns.map exactKey

/-- The `found_ranges` set of `_deduplicate_vulnerabilities`: coarse
`(file, category)` keys of all professional-tool findings. -/
def foundRanges (professional_vulns : List Vulnerability) :
    List (String × VulnerabilityCategory) :=
  professional_vulns.map rangeKey

/-- `confidence = vuln.fix_confidence if vuln.fix_confidence is not None else 0.7`. -/
def confidence (v : Vulnerability) : ℚ :=
  v.fix_confidence.getD (mkRat 7 10)

/-- The filtering loop over `regex_vulns` in `_deduplicate_vulnerabilities`:
discard an exact duplicate; otherwise keep a finding of confidence at least
`0.95` unconditionally; otherwise discard when the professional tools already
covered the file-and-category pair and the confidence is below `0.85`;
otherwise keep. -/
def filterRegex (professional_vulns : List Vulnerability) :
    List Vulnerability → List Vulnerability
  | [] => []
  | v :: rest =>
    if exactKey v ∈ foundIssues professional_vulns then
      filterRegex professional_vulns rest
    else if mkRat 95 100 ≤ confidence v then
      v :: filterRegex professional_vulns rest
    else if rangeKey v ∈ foundRanges professional_vulns ∧ confidence v < mkRat 85 100 then
      filterRegex professional_vulns rest
    else
      v :: filterRegex professional_vulns rest

/-- The per-element keep/discard decision implemented by the filtering loop of
`_deduplicate_vulnerabilities`, as a predicate. -/
def keepRegex (professional_vulns : List Vulnerability) (v : Vulnerability) : Bool :=
  if exactKey v ∈ foundIssues professional_vulns then false
  else if mkRat 95 100 ≤ confidence v then true
  else if rangeKey v ∈ foundRanges professional_vulns ∧ confidence v < mkRat 85 100 then false
  else true

/-- The `severity_order` dictionary of `_deduplicate_vulnerabilities`; the
`.get(..., 5)` default is unreachable because the lookup key is always the
value string of a `Severity` member. -/
def severityOrder : Severity → Nat
  | .CRITICAL => 0
  | .HIGH => 1
  | .MEDIUM => 2
  | .LOW => 3
  | .INFO => 4

/-- The sort key `(severity_order.get(...), v.file_path, v.start_line)` of
`_deduplicate_vulnerabilities`, under the lexicographic (Python tuple)
order.  `file_path` is compared through its character list, the order Python
uses for strings. -/
def sortKey (v : Vulnerability) : Lex (Nat × Lex (List Char × Nat)) :=
  toLex (severityOrder v.severity, toLex (v.file_path.data, v.start_line))

/-- Comparison of two findings by their sort keys. -/
def vulnLE (a b : Vulnerability) : Prop :=
  sortKey a ≤ sortKey b

instance : DecidableRel vulnLE :=
  fun a b => inferInstanceAs (Decidable (sortKey a ≤ sortKey b))

instance : IsTotal Vulnerability vulnLE :=
  ⟨fun a b => le_total (sortKey a) (sortKey b)⟩

instance : IsTrans Vulnerability vulnLE :=
  ⟨fun _ _ _ hab hbc => le_trans hab hbc⟩

/-- `SecurityScanner._deduplicate_vulnerabilities`: filter the regex findings
against the professional-tool indexes, concatenate professional findings with
the survivors, and stably sort by `(severity rank, file path, start line)`. -/
def deduplicateVulnerabilities
    (professional_vulns regex_vulns : List Vulnerability) : List Vulnerability :=
  List.insertionSort vulnLE (professional_vulns ++ filterRegex professional_vulns regex_vulns)

/-- A candidate file of the working copy, as seen by `_scan_file`: its path
relative to the scan root, whether `open(...).read()` succeeds, and its text
content when it does. -/
structure FileEntry where
  path : String
  readOk : Bool
  content : String
deriving DecidableEq, Repr

/-- A per-file scanner's `scan(content, rel_path)` call; `none` models the
scanner raising an exception. -/
def ScannerFn : Type :=
  String → String → Option (List Vulnerability)

/-- One `scanner.scan(content, rel_path)` call inside `_scan_file`: a raised
exception is caught and contributes no findings. -/
def runScanner (s : ScannerFn) (f : FileEntry) : List Vulnerability :=
  (s f.content f.path).getD []

/-- `SecurityScanner._scan_file`: when the read fails, the surrounding
`try/except` catches the error and the (empty) accumulated list is returned;
otherwise every scanner runs over the content, each scanner's own failure
being swallowed.  In particular this function never propagates an error to
the caller. -/
def scanFileModel (scanners : List ScannerFn) (f : FileEntry) : List Vulnerability :=
  if f.readOk then scanners.foldl (fun acc s => acc ++ runScanner s f) [] else []

/-- The mutable state of the per-file loop in `SecurityScanner.scan`:
the accumulated `regex_vulns` and `result.files_scanned`. -/
structure FileLoopState where
  regexVulns : List Vulnerability
  filesScanned : Nat
deriving DecidableEq, Repr

/-- The body of `for i, file_path in enumerate(files)` in
`SecurityScanner.scan`.  `scanFileModel` never raises (see above), so the
`except` branch of the loop body is unreachable and every iteration extends
`regex_vulns` and sets `files_scanned = i + 1`. -/
def runFileLoopAux (scanners : List ScannerFn) :
    Nat → FileLoopState → List FileEntry → FileLoopState
  | _, st, [] => st
  | i, st, f :: rest =>
    runFileLoopAux scanners (i + 1)
      { regexVulns := st.regexVulns ++ scanFileModel scanners f, filesScanned := i + 1 } rest

/-- The per-file scanning loop of `SecurityScanner.scan`, started at index 0
with no findings and `files_scanned = 0` (the `ScanResult` default). -/
def runFileLoop (scanners : List ScannerFn) (files : List FileEntry) : FileLoopState :=
  runFileLoopAux scanners 0 { regexVulns := [], filesScanned := 0 } files

/-- The error message `SecurityScanner.scan` stores when `_clone_repository`
returns `None`. -/
def failedCloneMessage : String :=
  "Failed to clone repository"

/-- Observable outcome of `SecurityScanner._clone_repository`: the returned
temporary directory (or `None`) and whether the temporary directory is still
on disk when the method returns.  `Repo.clone_from` reports clone failure by
raising `GitError`; on that path the method removes the directory it created
and returns `None`. -/
def cloneRepositoryModel (gitOk : Bool) : Option Unit × Bool :=
  if gitOk then (some (), true) else (none, false)

/-- The fields of `ScanResult` from `models.py` that the scan pipeline
writes (timestamps omitted: they carry no claim-relevant information). -/
structure ScanResultModel where
  scan_id : String
  status : String
  total_files : Nat
  files_scanned : Nat
  vulnerabilities : List Vulnerability
  error_message : Option String
deriving DecidableEq, Repr

/-- Environment of one `SecurityScanner.scan` run: whether the clone
succeeds, the enumerated candidate files, the result of each directory
scanner's `scan_directory` call (`none` models the scanner raising, caught by
the per-scanner `except`), and the per-file scanners. -/
structure ScanEnv where
  gitOk : Bool
  files : List FileEntry
  dirScannerResults : List (Option (List Vulnerability))
  fileScanners : List ScannerFn

/-- Result of a modelled `SecurityScanner.scan` run, together with the
observable side effects the spec talks about: whether the temporary working
directory persists after the final cleanup, and how many directory-scanner
calls and per-file scan iterations were performed. -/
structure ScanOutcome where
  result : ScanResultModel
  tempDirPersists : Bool
  dirScannerInvocations : Nat
  fileScanInvocations : Nat

/-- `SecurityScanner.scan`: clone; on a `None` working copy mark the result
`FAILED` with `failedCloneMessage` and return (the `finally` cleanup finds no
recorded directory, and `_clone_repository` already removed the one it
created).  Otherwise run the directory scanners (a raised scanner contributes
nothing), run the per-file loop, deduplicate, and complete; the `finally`
cleanup removes the working copy. -/
def scanModel (scan_id : String) (env : ScanEnv) : ScanOutcome :=
  match cloneRepositoryModel env.gitOk with
  | (none, dirOnDisk) =>
    { result := { scan_id := scan_id, status := "FAILED", total_files := 0,
                  files_scanned := 0, vulnerabilities := [],
                  error_message := some failedCloneMessage },
      tempDirPersists := dirOnDisk,
      dirScannerInvocations := 0,
      fileScanInvocations := 0 }
  | (some _, _) =>
    let professional := (env.dirScannerResults.map (fun r => r.getD [])).flatten
    let loop := runFileLoop env.fileScanners env.files
    { result := { scan_id := scan_id, status := "COMPLETED",
                  total_files := env.files.length,
                  files_scanned := loop.filesScanned,
                  vulnerabilities := deduplicateVulnerabilities professional loop.regexVulns,
                  error_message := none },
      tempDirPersists := false,
      dirScannerInvocations := env.dirScannerResults.length,
      fileScanInvocations := env.files.length }

/-- The scanner classes of `src/scanner-service/src/scanners/`.
`_init_scanners` deduplicates scanner instances by `type(scanner).__name__`,
which is in bijection with the class, so instances are represented by their
class. -/
inductive ScannerType where
  | XSSScanner
  | InjectionScanner
  | SecretsScanner
  | CSRFScanner
  | SessionScanner
  | IDORScanner
  | MisconfigScanner
  | SemgrepScanner
  | BanditScanner
  | DependencyScanner
deriving DecidableEq, Repr

/-- The `scanner_map` dictionary of `_init_scanners` (category string to the
class of the file scanner instance stored for it). -/
def scannerMap : String → Option ScannerType
  | "XSS" => some .XSSScanner
  | "SQL_INJECTION" => some .InjectionScanner
  | "COMMAND_INJECTION" => some .InjectionScanner
  | "SECRETS_EXPOSURE" => some .SecretsScanner
  | "CSRF" => some .CSRFScanner
  | "SESSION" => some .SessionScanner
  | "IDOR" => some .IDORScanner
  | "CONFIGURATION" => some .MisconfigScanner
  | "AUTHENTICATION" => some .MisconfigScanner
  | "AUTHORIZATION" => some .MisconfigScanner
  | "CRYPTOGRAPHY" => some .MisconfigScanner
  | "OPEN_REDIRECT" => some .MisconfigScanner
  | "PATH_TRAVERSAL" => some .InjectionScanner
  | "SSRF" => some .InjectionScanner
  | _ => none

/-- The `directory_scanner_map` dictionary of `_init_scanners`. -/
def directoryScannerMap : String → List ScannerType
  | "CODE_QUALITY" => [.SemgrepScanner, .BanditScanner]
  | "DEPENDENCY" => [.DependencyScanner]
  | _ => []

/-- One step of the instance-deduplication pattern in `_init_scanners`: the
pair is `(used_scanners, selected scanner list)`; a scanner whose class is
already in `used_scanners` is skipped, otherwise it is appended to both. -/
def addUnique (p : List ScannerType × List ScannerType) (s : ScannerType) :
    List ScannerType × List ScannerType :=
  if s ∈ p.1 then p else (p.1 ++ [s], p.2 ++ [s])

/-- The first `for category in selected` loop of `_init_scanners`, building
`self.scanners`; a category missing from `scanner_map` is skipped. -/
def fileStep (p : List ScannerType × List ScannerType) (c : String) :
    List ScannerType × List ScannerType :=
  match scannerMap c with
  | some s => addUnique p s
  | none => p

/-- The second `for category in selected` loop of `_init_scanners`, building
`self.directory_scanners`; each mapped scanner of the category goes through
the same `used_scanners` deduplication. -/
def dirStep (p : List ScannerType × List ScannerType) (c : String) :
    List ScannerType × List ScannerType :=
  (directoryScannerMap c).foldl addUnique p

/-- The scanner rosters selected by `_init_scanners`. -/
structure ScannerSelection where
  fileScanners : List ScannerType
  directoryScanners : List ScannerType
deriving DecidableEq, Repr

/-- The `CUSTOM` branch of `_init_scanners`: run both selection loops over
the requested category list, sharing the `used_scanners` set. -/
def initScannersCustom (selected : List String) : ScannerSelection :=
  let fp := selected.foldl fileStep ([], [])
  let dp := selected.foldl dirStep (fp.1, [])
  { fileScanners := fp.2, directoryScanners := dp.2 }

/-- The full/quick roster `self.scanners` of `_init_scanners`. -/
def fullFileRoster : List ScannerType :=
  [.XSSScanner, .InjectionScanner, .SecretsScanner, .CSRFScanner,
   .SessionScanner, .IDORScanner, .MisconfigScanner]

/-- The full/quick roster `self.directory_scanners` of `_init_scanners`. -/
def fullDirectoryRoster : List ScannerType :=
  [.SemgrepScanner, .BanditScanner, .DependencyScanner]

/-- The scan request fields consumed by `_init_scanners` (`models.py`,
`@dataclass class ScanRequest`). -/
structure ScanRequestModel where
  scan_id : String
  clone_url : String
  branch : String := "main"
  access_token : Option String := none
  scan_type : String := "FULL"
  scanners : Option (List String) := none

/-- `SecurityScanner._init_scanners`: `selected` is the request's category
list exactly when the scan type is `CUSTOM` and the list is present and
non-empty (Python truthiness); otherwise the full rosters are used. -/
def initScanners (req : ScanRequestModel) : ScannerSelection :=
  match (if req.scan_type = "CUSTOM" then req.scanners.getD [] else []) with
  | [] => { fileScanners := fullFileRoster, directoryScanners := fullDirectoryRoster }
  | c :: rest => initScannersCustom (c :: rest)

/-- A category is mapped when either selection map knows it. -/
def isMappedCategory (c : String) : Bool :=
  (scannerMap c).isSome || !(directoryScannerMap c).isEmpty

/-- A tool (professional) SQL-injection finding at `("a.py", 10)`. -/
def toolSqlInjection : Vulnerability :=
  { title := "tool sql injection", description := "found by tool",
    severity := .HIGH, category := .SQL_INJECTION,
    file_path := "a.py", start_line := 10, end_line := 10 }

/-- A second, distinct tool finding at the same `(file, line, category)`
triple as `toolSqlInjection`. -/
def toolSqlInjectionDup : Vulnerability :=
  { title := "tool sql injection duplicate", description := "found by second tool",
    severity := .HIGH, category := .SQL_INJECTION,
    file_path := "a.py", start_line := 10, end_line := 12 }

/-- A pattern SQL-injection finding at the same triple, confidence 0.8. -/
def patternSqlInjection : Vulnerability :=
  { title := "pattern sql injection", description := "found by regex",
    severity := .MEDIUM, category := .SQL_INJECTION,
    file_path := "a.py", start_line := 10, end_line := 10,
    fix_confidence := some (mkRat 8 10) }

/-- A tool secrets finding at `("a.py", 10)`. -/
def toolSecretA : Vulnerability :=
  { title := "tool secret a", description := "found by tool",
    severity := .CRITICAL, category := .SECRETS_EXPOSURE,
    file_path := "a.py", start_line := 10, end_line := 10 }

/-- A tool secrets finding at `("a.py", 55)`. -/
def toolSecretB : Vulnerability :=
  { title := "tool secret b", description := "found by tool",
    severity := .CRITICAL, category := .SECRETS_EXPOSURE,
    file_path := "a.py", start_line := 55, end_line := 55 }

/-- A pattern secrets finding at `("a.py", 55)`, confidence 0.97. -/
def patternSecret : Vulnerability :=
  { title := "pattern secret", description := "found by regex",
    severity := .CRITICAL, category := .SECRETS_EXPOSURE,
    file_path := "a.py", start_line := 55, end_line := 55,
    fix_confidence := some (mkRat 97 100) }

/-- A pattern secrets finding at the exact triple of `toolSecretA`,
confidence 0.97. -/
def patternSecretExact : Vulnerability :=
  { title := "pattern secret exact", description := "found by regex",
    severity := .CRITICAL, category := .SECRETS_EXPOSURE,
    file_path := "a.py", start_line := 10, end_line := 10,
    fix_confidence := some (mkRat 97 100) }

/-- A candidate file whose read fails. -/
def failingFile : FileEntry :=
  { path := "bad.py", readOk := false, content := "" }

/-- A candidate file whose read succeeds. -/
def readableFile : FileEntry :=
  { path := "ok.py", readOk := true, content := "x = 1" }

/-- A scan environment whose repository clone fails. -/
def failingCloneEnv : ScanEnv :=
  { gitOk := false, files := [], dirScannerResults := [], fileScanners := [] }

/-- The `CUSTOM` scan request of the selection claim. -/
def customRequest : ScanRequestModel :=
  { scan_id := "scan-1", clone_url := "https://example.com/repo.git",
    scan_type := "CUSTOM",
    scanners := some ["SECRETS_EXPOSURE", "SQL_INJECTION", "COMMAND_INJECTION"] }

theorem filterRegex_eq_filter (professional_vulns : List Vulnerability) :
    ∀ regex_vulns, filterRegex professional_vulns regex_vulns
      = regex_vulns.filter (keepRegex professional_vulns)
  | [] => rfl
  | v :: rest => by
    rw [filterRegex, List.filter_cons, keepRegex,
      filterRegex_eq_filter professional_vulns rest]
    by_cases h1 : exactKey v ∈ foundIssues professional_vulns
    · simp [h1]
    · by_cases h2 : mkRat 95 100 ≤ confidence v
      · simp [h1, h2]
      · by_cases h3 : rangeKey v ∈ foundRanges professional_vulns
          ∧ confidence v < mkRat 85 100
        · simp [h1, h2, h3]
        · simp [h1, h2, h3]

theorem keepRegex_eq_false_of_exact {professional_vulns : List Vulnerability}
    {v : Vulnerability} (h : exactKey v ∈ foundIssues professional_vulns) :
    keepRegex professional_vulns v = false := by
  simp [keepRegex, h]

theorem keepRegex_eq_true_of_high {professional_vulns : List Vulnerability}
    {v : Vulnerability} (h1 : exactKey v ∉ foundIssues professional_vulns)
    (h2 : mkRat 95 100 ≤ confidence v) :
    keepRegex professional_vulns v = true := by
  simp [keepRegex, h1, h2]

theorem dedup_perm_append (professional_vulns regex_vulns : List Vulnerability) :
    (deduplicateVulnerabilities professional_vulns regex_vulns).Perm
      (professional_vulns ++ filterRegex professional_vulns regex_vulns) :=
  List.perm_insertionSort vulnLE _

/-- It is claimed (C10) that the dedup engine's output is a permutation of the
tool findings plus a sub-multiset of the pattern findings, with every record
unmodified. -/
theorem dedup_output_multiset (professional_vulns regex_vulns : List Vulnerability) :
    (filterRegex professional_vulns regex_vulns).Sublist regex_vulns ∧
    (deduplicateVulnerabilities professional_vulns regex_vulns).Perm
      (professional_vulns ++ filterRegex professional_vulns regex_vulns) := by
  constructor
  · rw [filterRegex_eq_filter]
    exact List.filter_sublist regex_vulns
  · exact dedup_perm_append professional_vulns regex_vulns

/-- It is claimed (C5) that with no tool findings every pattern finding passes
the filter, and the output differs from the input only in ordering. -/
theorem dedup_empty_tool_passthrough (regex_vulns : List Vulnerability) :
    filterRegex [] regex_vulns = regex_vulns ∧
    (deduplicateVulnerabilities [] regex_vulns).Perm regex_vulns := by
  have hfilter : filterRegex [] regex_vulns = regex_vulns := by
    rw [filterRegex_eq_filter]
    apply List.filter_eq_self.mpr
    intro v _
    simp [keepRegex, foundIssues, foundRanges]
  refine ⟨hfilter, ?_⟩
  have := dedup_perm_append [] regex_vulns
  rwa [hfilter, List.nil_append] at this

/-- It is claimed (C4) that the engine is idempotent: re-running it on the tool
findings together with the surviving pattern findings returns the first run's
output unchanged. -/
theorem dedup_idempotent (professional_vulns regex_vulns : List Vulnerability) :
    deduplicateVulnerabilities professional_vulns
        (filterRegex professional_vulns regex_vulns)
      = deduplicateVulnerabilities professional_vulns regex_vulns := by
  unfold deduplicateVulnerabilities
  rw [filterRegex_eq_filter, filterRegex_eq_filter, List.filter_filter]
  simp

/-- It is claimed (C9) that the exact-match discard takes precedence over the
high-confidence keep: a pattern finding whose exact key is already covered by
a tool finding never survives the filter, even at confidence at least 0.95. -/
theorem exact_match_beats_high_confidence
    (professional_vulns regex_vulns : List Vulnerability) (v : Vulnerability)
    (hexact : exactKey v ∈ foundIssues professional_vulns)
    (hconf : mkRat 95 100 ≤ confidence v) :
    v ∉ filterRegex professional_vulns regex_vulns := by
  intro hmem
  rw [filterRegex_eq_filter] at hmem
  have hkeep := (List.mem_filter.mp hmem).2
  rw [keepRegex_eq_false_of_exact hexact] at hkeep
  exact Bool.false_ne_true hkeep

theorem insertionSort_filter_key (l : List Vulnerability)
    (k : Lex (Nat × Lex (List Char × Nat))) :
    (List.insertionSort vulnLE l).filter (fun v => decide (sortKey v = k))
      = l.filter (fun v => decide (sortKey v = k)) := by
  have hpair : (l.filter (fun v => decide (sortKey v = k))).Pairwise vulnLE := by
    apply List.pairwise_of_forall_mem_list
    intro a ha b hb
    have hak : sortKey a = k := of_decide_eq_true (List.mem_filter.mp ha).2
    have hbk : sortKey b = k := of_decide_eq_true (List.mem_filter.mp hb).2
    unfold vulnLE
    rw [hak, hbk]
  have hsub : (l.filter (fun v => decide (sortKey v = k))).Sublist
      (List.insertionSort vulnLE l) :=
    List.sublist_insertionSort hpair (List.filter_sublist l)
  have hperm : ((List.insertionSort vulnLE l).filter (fun v => decide (sortKey v = k))).Perm
      (l.filter (fun v => decide (sortKey v = k))) :=
    (List.perm_insertionSort vulnLE l).filter _
  have hsub2 : (l.filter (fun v => decide (sortKey v = k))).Sublist
      ((List.insertionSort vulnLE l).filter (fun v => decide (sortKey v = k))) := by
    have h3 := hsub.filter (fun v => decide (sortKey v = k))
    simpa using h3
  exact (hsub2.eq_of_length hperm.length_eq.symm).symm

/-- It is claimed (C1) that the engine's output is sorted: adjacent findings
are ordered by severity rank, then file path (lexicographic), then start
line; and the sort is stable, so ties beyond these three keys keep the prior
relative order (here: the output's findings of any fixed sort key appear
exactly in the order of the pre-sort concatenation). -/
theorem dedup_sorted_and_stable (professional_vulns regex_vulns : List Vulnerability) :
    ((deduplicateVulnerabilities professional_vulns regex_vulns).Pairwise fun a b =>
      severityOrder a.severity < severityOrder b.severity ∨
        (severityOrder a.severity = severityOrder b.severity ∧
          (a.file_path.data < b.file_path.data ∨
            (a.file_path.data = b.file_path.data ∧ a.start_line ≤ b.start_line)))) ∧
    ∀ k, (deduplicateVulnerabilities professional_vulns regex_vulns).filter
          (fun v => decide (sortKey v = k))
        = (professional_vulns ++ filterRegex professional_vulns regex_vulns).filter
          (fun v => decide (sortKey v = k)) := by
  constructor
  · have hs : (List.insertionSort vulnLE
        (professional_vulns ++ filterRegex professional_vulns regex_vulns)).Pairwise vulnLE :=
      List.sorted_insertionSort vulnLE _
    refine List.Pairwise.imp ?_ hs
    intro a b hab
    have hlex : toLex (severityOrder a.severity, toLex (a.file_path.data, a.start_line))
        ≤ toLex (severityOrder b.severity, toLex (b.file_path.data, b.start_line)) := hab
    rcases (Prod.Lex.le_iff _ _).mp hlex with h | ⟨heq, hle⟩
    · exact Or.inl h
    · refine Or.inr ⟨heq, ?_⟩
      rcases (Prod.Lex.le_iff _ _).mp hle with h2 | ⟨heq2, hle2⟩
      · exact Or.inl h2
      · exact Or.inr ⟨heq2, hle2⟩
  · intro k
    exact insertionSort_filter_key _ k

/-- C2 as frozen is refuted: with two tool findings at one `(file, line,
category)` triple and a pattern finding at the same triple with confidence
0.8, the output holds two findings at that location, not exactly one. -/
theorem dedup_exact_duplicate_counterexample :
    toolSqlInjection ∈ [toolSqlInjection, toolSqlInjectionDup] ∧
    patternSqlInjection ∈ [patternSqlInjection] ∧
    exactKey patternSqlInjection = exactKey toolSqlInjection ∧
    confidence patternSqlInjection = mkRat 8 10 ∧
    (deduplicateVulnerabilities [toolSqlInjection, toolSqlInjectionDup]
        [patternSqlInjection]).countP
      (fun w => decide (exactKey w = exactKey toolSqlInjection)) = 2 ∧
    ¬ (deduplicateVulnerabilities [toolSqlInjection, toolSqlInjectionDup]
        [patternSqlInjection]).countP
      (fun w => decide (exactKey w = exactKey toolSqlInjection)) = 1 := by
  decide

/-- C2 amended: when exactly one tool finding occupies the triple, the output
holds exactly that tool finding at the location, and the pattern duplicate is
discarded by the filter. -/
theorem dedup_exact_duplicate_unique
    (professional_vulns regex_vulns : List Vulnerability) (t p : Vulnerability)
    (htm : t ∈ professional_vulns)
    (huniq : professional_vulns.countP (fun w => decide (exactKey w = exactKey t)) = 1)
    (hpm : p ∈ regex_vulns) (hpk : exactKey p = exactKey t)
    (hpc : confidence p = mkRat 8 10) :
    (deduplicateVulnerabilities professional_vulns regex_vulns).filter
        (fun w => decide (exactKey w = exactKey t)) = [t] ∧
    p ∉ filterRegex professional_vulns regex_vulns := by
  have hkeyset : exactKey t ∈ foundIssues professional_vulns :=
    List.mem_map_of_mem exactKey htm
  have hzero : (filterRegex professional_vulns regex_vulns).countP
      (fun w => decide (exactKey w = exactKey t)) = 0 := by
    rw [filterRegex_eq_filter]
    apply List.countP_eq_zero.mpr
    intro w hw hdec
    have hkey : exactKey w = exactKey t := of_decide_eq_true hdec
    have hkeep := (List.mem_filter.mp hw).2
    rw [keepRegex_eq_false_of_exact (by rwa [hkey])] at hkeep
    exact Bool.false_ne_true hkeep
  have hcount : (deduplicateVulnerabilities professional_vulns regex_vulns).countP
      (fun w => decide (exactKey w = exactKey t)) = 1 := by
    rw [(dedup_perm_append professional_vulns regex_vulns).countP_eq,
      List.countP_append, hzero, huniq]
  constructor
  · have hlen : ((deduplicateVulnerabilities professional_vulns regex_vulns).filter
        (fun w => decide (exactKey w = exactKey t))).length = 1 := by
      rw [← List.countP_eq_length_filter, hcount]
    obtain ⟨a, ha⟩ := List.length_eq_one.mp hlen
    have htmem : t ∈ (deduplicateVulnerabilities professional_vulns regex_vulns).filter
        (fun w => decide (exactKey w = exactKey t)) := by
      apply List.mem_filter.mpr
      refine ⟨?_, by simp⟩
      unfold deduplicateVulnerabilities
      exact (List.mem_insertionSort vulnLE).mpr (List.mem_append_left _ htm)
    rw [ha] at htmem ⊢
    rw [List.mem_singleton.mp htmem]
  · intro hmem
    rw [filterRegex_eq_filter] at hmem
    have hkeep := (List.mem_filter.mp hmem).2
    rw [keepRegex_eq_false_of_exact (by rwa [hpk])] at hkeep
    exact Bool.false_ne_true hkeep

theorem dedup_exact_duplicate_unique_witness :
    (deduplicateVulnerabilities [toolSqlInjection] [patternSqlInjection]).filter
        (fun w => decide (exactKey w = exactKey toolSqlInjection)) = [toolSqlInjection] ∧
    patternSqlInjection ∉ filterRegex [toolSqlInjection] [patternSqlInjection] :=
  dedup_exact_duplicate_unique [toolSqlInjection] [patternSqlInjection]
    toolSqlInjection patternSqlInjection (by decide) (by decide) (by decide)
    (by decide) (by decide)

/-- C3 as frozen is refuted: a 0.97-confidence pattern finding at a line
different from one tool finding's is still discarded when a second tool
finding occupies its exact triple. -/
theorem dedup_high_confidence_counterexample :
    toolSecretA ∈ [toolSecretA, toolSecretB] ∧
    exactKey toolSecretA = ("a.py", 10, VulnerabilityCategory.SECRETS_EXPOSURE) ∧
    patternSecret ∈ [patternSecret] ∧
    exactKey patternSecret = ("a.py", 55, VulnerabilityCategory.SECRETS_EXPOSURE) ∧
    confidence patternSecret = mkRat 97 100 ∧
    patternSecret ∉ deduplicateVulnerabilities [toolSecretA, toolSecretB] [patternSecret] := by
  decide

/-- C3 amended: a pattern finding of confidence at least 0.95 whose exact
triple is not occupied by any tool finding survives, and every tool finding
survives, regardless of file/category overlap. -/
theorem dedup_high_confidence_survives
    (professional_vulns regex_vulns : List Vulnerability) (t p : Vulnerability)
    (htm : t ∈ professional_vulns) (hpm : p ∈ regex_vulns)
    (hconf : mkRat 95 100 ≤ confidence p)
    (hnew : exactKey p ∉ foundIssues professional_vulns) :
    t ∈ deduplicateVulnerabilities professional_vulns regex_vulns ∧
    p ∈ deduplicateVulnerabilities professional_vulns regex_vulns := by
  unfold deduplicateVulnerabilities
  constructor
  · exact (List.mem_insertionSort vulnLE).mpr (List.mem_append_left _ htm)
  · apply (List.mem_insertionSort vulnLE).mpr
    apply List.mem_append_right
    rw [filterRegex_eq_filter]
    exact List.mem_filter.mpr ⟨hpm, keepRegex_eq_true_of_high hnew hconf⟩

theorem dedup_high_confidence_survives_witness :
    toolSecretA ∈ deduplicateVulnerabilities [toolSecretA] [patternSecret] ∧
    patternSecret ∈ deduplicateVulnerabilities [toolSecretA] [patternSecret] :=
  dedup_high_confidence_survives [toolSecretA] [patternSecret] toolSecretA patternSecret
    (by decide) (by decide) (by decide) (by decide)

theorem exact_match_beats_high_confidence_witness :
    exactKey patternSecretExact ∈ foundIssues [toolSecretA] ∧
    mkRat 95 100 ≤ confidence patternSecretExact ∧
    patternSecretExact ∉ filterRegex [toolSecretA] [patternSecretExact] :=
  ⟨by decide, by decide,
    exact_match_beats_high_confidence [toolSecretA] [patternSecretExact]
      patternSecretExact (by decide) (by decide)⟩

theorem runFileLoopAux_regexVulns (scanners : List ScannerFn) :
    ∀ (files : List FileEntry) (i : Nat) (st : FileLoopState),
      (runFileLoopAux scanners i st files).regexVulns
        = st.regexVulns ++ (files.map (scanFileModel scanners)).flatten
  | [], _, _ => by simp [runFileLoopAux]
  | f :: rest, i, st => by
    rw [runFileLoopAux, runFileLoopAux_regexVulns scanners rest]
    simp

theorem runFileLoopAux_filesScanned (scanners : List ScannerFn) :
    ∀ (files : List FileEntry) (i : Nat) (st : FileLoopState), files ≠ [] →
      (runFileLoopAux scanners i st files).filesScanned = i + files.length
  | [], _, _, h => absurd rfl h
  | f :: rest, i, st, _ => by
    rw [runFileLoopAux]
    by_cases hr : rest = []
    · subst hr
      simp [runFileLoopAux]
    · rw [runFileLoopAux_filesScanned scanners rest (i + 1) _ hr]
      simp
      omega

theorem runFileLoop_filesScanned (scanners : List ScannerFn) (files : List FileEntry) :
    (runFileLoop scanners files).filesScanned = files.length := by
  cases files with
  | nil => rfl
  | cons f rest =>
    rw [runFileLoop, runFileLoopAux_filesScanned scanners (f :: rest) 0 _ (by simp)]
    simp

/-- C6 as frozen is refuted: a file whose read fails is still counted by
`files_scanned` (the read failure is swallowed inside the per-file scan, so
the loop body completes and records index + 1), hence the counter exceeds
the number of successfully processed files. -/
theorem files_scanned_counts_failed_reads :
    failingFile.readOk = false ∧
    (runFileLoop [] [failingFile, readableFile]).filesScanned = 2 ∧
    [failingFile, readableFile].countP (fun f => f.readOk) = 1 ∧
    ¬ (runFileLoop [] [failingFile, readableFile]).filesScanned
        = [failingFile, readableFile].countP (fun f => f.readOk) := by
  decide

/-- C6 amended: a failing file is skipped (contributes zero findings) and the
scan continues through every remaining file, but `files_scanned` ends at the
number of files attempted — files whose read failed included. -/
theorem file_loop_skips_failures_counts_attempts
    (scanners : List ScannerFn) (files : List FileEntry) :
    (runFileLoop scanners files).filesScanned = files.length ∧
    (runFileLoop scanners files).regexVulns
      = (files.map (scanFileModel scanners)).flatten ∧
    ∀ f ∈ files, f.readOk = false → scanFileModel scanners f = [] := by
  refine ⟨runFileLoop_filesScanned scanners files, ?_, ?_⟩
  · rw [runFileLoop, runFileLoopAux_regexVulns]
    simp
  · intro f _ hf
    simp [scanFileModel, hf]

/-- It is claimed (C7) that when repository acquisition fails the scan result
is FAILED with no findings and a non-empty error message, no directory or
file scanner runs, and the temporary working directory does not persist. -/
theorem scan_acquisition_failure (scan_id : String) (env : ScanEnv)
    (h : env.gitOk = false) :
    (scanModel scan_id env).result.status = "FAILED" ∧
    (scanModel scan_id env).result.vulnerabilities = [] ∧
    (scanModel scan_id env).result.error_message = some failedCloneMessage ∧
    failedCloneMessage ≠ "" ∧
    (scanModel scan_id env).dirScannerInvocations = 0 ∧
    (scanModel scan_id env).fileScanInvocations = 0 ∧
    (scanModel scan_id env).tempDirPersists = false := by
  simp [scanModel, cloneRepositoryModel, h, failedCloneMessage]

theorem scan_acquisition_failure_witness :
    failingCloneEnv.gitOk = false ∧
    (scanModel "scan-w" failingCloneEnv).result.status = "FAILED" ∧
    (scanModel "scan-w" failingCloneEnv).result.vulnerabilities = [] ∧
    (scanModel "scan-w" failingCloneEnv).tempDirPersists = false :=
  ⟨rfl, (scan_acquisition_failure "scan-w" failingCloneEnv rfl).1,
    (scan_acquisition_failure "scan-w" failingCloneEnv rfl).2.1,
    (scan_acquisition_failure "scan-w" failingCloneEnv rfl).2.2.2.2.2.2⟩

theorem foldl_addUnique_invariant :
    ∀ (l : List ScannerType) (p : List ScannerType × List ScannerType),
      p.2.Nodup → (∀ x ∈ p.2, x ∈ p.1) →
      (l.foldl addUnique p).2.Nodup ∧
      (∀ x ∈ (l.foldl addUnique p).2, x ∈ (l.foldl addUnique p).1) ∧
      (∀ x ∈ p.1, x ∈ (l.foldl addUnique p).1) ∧
      (∀ x ∈ (l.foldl addUnique p).2, x ∈ p.2 ∨ x ∉ p.1)
  | [], p, h1, h2 => ⟨h1, h2, fun _ hx => hx, fun _ hx => Or.inl hx⟩
  | s :: rest, p, h1, h2 => by
    rw [List.foldl_cons]
    by_cases hs : s ∈ p.1
    · have heq : addUnique p s = p := by simp [addUnique, hs]
      rw [heq]
      exact foldl_addUnique_invariant rest p h1 h2
    · have heq : addUnique p s = (p.1 ++ [s], p.2 ++ [s]) := by simp [addUnique, hs]
      rw [heq]
      have hsp2 : s ∉ p.2 := fun hc => hs (h2 s hc)
      have h1' : (p.2 ++ [s]).Nodup := by
        simp [List.nodup_append, h1, hsp2]
      have h2' : ∀ x ∈ p.2 ++ [s], x ∈ p.1 ++ [s] := by
        intro x hx
        rcases List.mem_append.mp hx with hx' | hx'
        · exact List.mem_append_left _ (h2 x hx')
        · exact List.mem_append_right _ hx'
      have ih := foldl_addUnique_invariant rest (p.1 ++ [s], p.2 ++ [s]) h1' h2'
      refine ⟨ih.1, ih.2.1, ?_, ?_⟩
      · intro x hx
        exact ih.2.2.1 x (List.mem_append_left _ hx)
      · intro x hx
        rcases ih.2.2.2 x hx with hx2 | hx1
        · rcases List.mem_append.mp hx2 with hmem | hmem
          · exact Or.inl hmem
          · rw [List.mem_singleton.mp hmem]
            exact Or.inr hs
        · exact Or.inr fun hc => hx1 (List.mem_append_left _ hc)

theorem fileStep_eq_foldl (p : List ScannerType × List ScannerType) (c : String) :
    fileStep p c = ((scannerMap c).toList).foldl addUnique p := by
  cases h : scannerMap c <;> simp [fileStep, h]

theorem foldl_fileStep_eq :
    ∀ (selected : List String) (p : List ScannerType × List ScannerType),
      selected.foldl fileStep p
        = (selected.flatMap fun c => (scannerMap c).toList).foldl addUnique p
  | [], _ => rfl
  | c :: rest, p => by
    rw [List.foldl_cons, List.flatMap_cons, List.foldl_append, fileStep_eq_foldl,
      foldl_fileStep_eq rest]

theorem foldl_dirStep_eq :
    ∀ (selected : List String) (p : List ScannerType × List ScannerType),
      selected.foldl dirStep p
        = (selected.flatMap directoryScannerMap).foldl addUnique p
  | [], _ => rfl
  | c :: rest, p => by
    rw [List.foldl_cons, List.flatMap_cons, List.foldl_append, foldl_dirStep_eq rest]
    rfl

theorem initScannersCustom_nodup (selected : List String) :
    ((initScannersCustom selected).fileScanners
      ++ (initScannersCustom selected).directoryScanners).Nodup := by
  simp only [initScannersCustom, foldl_fileStep_eq, foldl_dirStep_eq]
  have hfile := foldl_addUnique_invariant
    (selected.flatMap fun c => (scannerMap c).toList) ([], [])
    List.nodup_nil (by intro x hx; cases hx)
  set fp := (selected.flatMap fun c => (scannerMap c).toList).foldl addUnique ([], [])
    with hfp
  have hdir := foldl_addUnique_invariant
    (selected.flatMap directoryScannerMap) (fp.1, []) List.nodup_nil
    (by intro x hx; cases hx)
  set dp := (selected.flatMap directoryScannerMap).foldl addUnique (fp.1, []) with hdp
  simp only [List.nodup_append]
  refine ⟨hfile.1, hdir.1, ?_⟩
  intro x hxf hxd
  rcases hdir.2.2.2 x hxd with hmem | hnot
  · cases hmem
  · exact hnot (hfile.2.1 x hxf)

theorem flatMap_filter_mapped (g : String → List ScannerType)
    (hg : ∀ c, isMappedCategory c = false → g c = []) :
    ∀ l : List String, (l.filter isMappedCategory).flatMap g = l.flatMap g
  | [] => rfl
  | c :: rest => by
    rw [List.filter_cons]
    by_cases hc : isMappedCategory c = true
    · rw [if_pos hc, List.flatMap_cons, List.flatMap_cons, flatMap_filter_mapped g hg rest]
    · rw [if_neg hc, List.flatMap_cons, hg c (Bool.not_eq_true _ ▸ hc),
        flatMap_filter_mapped g hg rest, List.nil_append]

theorem initScannersCustom_filter (selected : List String) :
    initScannersCustom (selected.filter isMappedCategory) = initScannersCustom selected := by
  have hf : ∀ c, isMappedCategory c = false → (scannerMap c).toList = [] := by
    intro c hc
    simp only [isMappedCategory, Bool.or_eq_false_iff] at hc
    rcases hc with ⟨h1, -⟩
    cases h : scannerMap c
    · rfl
    · rw [h] at h1
      simp at h1
  have hd : ∀ c, isMappedCategory c = false → directoryScannerMap c = [] := by
    intro c hc
    simp only [isMappedCategory, Bool.or_eq_false_iff] at hc
    rcases hc with ⟨-, h2⟩
    simpa using h2
  simp only [initScannersCustom, foldl_fileStep_eq, foldl_dirStep_eq,
    flatMap_filter_mapped _ hf, flatMap_filter_mapped _ hd]

/-- It is claimed (C8) that the custom request selecting SECRETS_EXPOSURE,
SQL_INJECTION and COMMAND_INJECTION yields exactly two scanner instances
(one secrets scanner, one injection scanner); in general every scanner class
is selected at most once and unmapped categories are silently ignored. -/
theorem custom_scan_scanner_selection :
    (initScanners customRequest).fileScanners
        = [.SecretsScanner, .InjectionScanner] ∧
    (initScanners customRequest).directoryScanners = [] ∧
    ((initScanners customRequest).fileScanners
      ++ (initScanners customRequest).directoryScanners).length = 2 ∧
    (∀ selected : List String,
      ((initScannersCustom selected).fileScanners
        ++ (initScannersCustom selected).directoryScanners).Nodup) ∧
    (∀ selected : List String,
      initScannersCustom (selected.filter isMappedCategory) = initScannersCustom selected) :=
  ⟨by decide, by decide, by decide, initScannersCustom_nodup, initScannersCustom_filter⟩

end GitScan
